import Mathlib

/-!
Verification development for the clipshot capture-detect-deliver core
(`src/monitor.ts`).  The monitor is embedded shallowly: external effects
(the clipboard tools, the filesystem, the ssh subprocess, the system
clock, the md5 primitive of the Node crypto library) are parameters of
the pure Lean functions, and the stateful poll loop becomes explicit
state passing over the in-memory monitor state (the last-seen image
hash) and an event trace (log lines and clipboard writes).
-/

namespace Clipshot

/-- A calendar instant as the JS `Date` exposes it (1-based month/day,
24h clock, milliseconds), used to model `Date.prototype.toISOString`
for the standard four-digit-year era that `Date.now()` yields. -/
structure DateTime where
  year : Nat
  month : Nat
  day : Nat
  hour : Nat
  minute : Nat
  second : Nat
  ms : Nat
deriving DecidableEq

/-- The decimal digit character for `n` (meaningful for `n < 10`). -/
def digitChar (n : Nat) : Char := Char.ofNat (48 + n)

/-- Two-digit zero-padded decimal rendering, as `toISOString` pads
month, day, hour, minute and second fields. -/
def pad2 (n : Nat) : List Char := [digitChar (n / 10 % 10), digitChar (n % 10)]

/-- Three-digit zero-padded decimal rendering (milliseconds field). -/
def pad3 (n : Nat) : List Char :=
  [digitChar (n / 100 % 10), digitChar (n / 10 % 10), digitChar (n % 10)]

/-- Four-digit zero-padded decimal rendering (year field). -/
def pad4 (n : Nat) : List Char :=
  [digitChar (n / 1000 % 10), digitChar (n / 100 % 10), digitChar (n / 10 % 10),
    digitChar (n % 10)]

/-- The character list of `Date.prototype.toISOString()`:
`YYYY-MM-DDTHH:MM:SS.mmmZ`. -/
def toISOChars (d : DateTime) : List Char :=
  pad4 d.year ++ '-' :: pad2 d.month ++ '-' :: pad2 d.day ++
    'T' :: pad2 d.hour ++ ':' :: pad2 d.minute ++ ':' :: pad2 d.second ++
    '.' :: pad3 d.ms ++ ['Z']

/-- The character substitution of `.replace(/[:.]/g, "-")`: each colon
or dot becomes a hyphen (the replacement is a single character, so the
global regex replace is an elementwise map). -/
def dashify (c : Char) : Char := if c = ':' || c = '.' then '-' else c

/-- Models `new Date().toISOString().replace(/[:.]/g, "-").slice(0, 19)`, the
timestamp slug shared by `generateFilename` and `createNewLogFile`. -/
def isoSlugChars (d : DateTime) : List Char :=
  ((toISOChars d).map dashify).take 19

/-- Plain decimal rendering of a natural number (fuel-structured so it
reduces in the kernel); models JS number-to-string for naturals. -/
def decChars : Nat → Nat → List Char
  | 0, _ => []
  | fuel + 1, n =>
    if n < 10 then [digitChar n]
    else decChars fuel (n / 10) ++ [digitChar (n % 10)]

/-- Decimal string of a natural number. -/
def natToDecStr (n : Nat) : String := String.mk (decChars (n + 1) n)

/-- Models `Math.round(len / 1024)`: round-half-up of the KB size, in exact
integer arithmetic. -/
def jsRoundKB (len : Nat) : Nat := (2 * len + 1024) / 2048

/-- Embeds `generateFilename` (monitor.ts:128-132): `screenshot-` followed by
the 19-character timestamp slug and `.png`. -/
def generateFilename (now : DateTime) : String :=
  "screenshot-" ++ String.mk (isoSlugChars now) ++ ".png"

/-- Embeds `getLogDir` (monitor.ts:28-30). -/
def getLogDir (homedir : String) : String := homedir ++ "/.config/clipshot/logs"

/-- Embeds `createNewLogFile` (monitor.ts:39-44): the full path of a fresh
timestamped log file (the `ensureLogDir` side effect is elided). -/
def createNewLogFile (homedir : String) (now : DateTime) : String :=
  getLogDir homedir ++ "/clipshot-" ++ String.mk (isoSlugChars now) ++ ".log"

/-- Embeds `LOG_MAX_AGE_MS` (monitor.ts:8). -/
def LOG_MAX_AGE_MS : Nat := 60 * 60 * 1000

/-- The logger's module-level state: `logFile` and `logStartTime`
(monitor.ts:11-12). -/
structure LogState where
  logFile : Option String
  logStartTime : Nat
deriving DecidableEq

/-- The rotation decision and file selection of `log`
(monitor.ts:46-58): a new file is opened when no session is open or the
session age strictly exceeds `LOG_MAX_AGE_MS`; the line is appended to
the selected file (returned as the second component). -/
def logStep (homedir : String) (st : LogState) (nowMs : Nat) (now : DateTime) :
    LogState × String :=
  match st.logFile with
  | none =>
    let f := createNewLogFile homedir now
    (⟨some f, nowMs⟩, f)
  | some f =>
    if nowMs - st.logStartTime > LOG_MAX_AGE_MS then
      let f' := createNewLogFile homedir now
      (⟨some f', nowMs⟩, f')
    else (st, f)

/-- Embeds `getRemoteHomePath` (monitor.ts:152-161): the regex
`/^([^@]+)@/` matches exactly when the string has a nonempty run of
non-`@` characters followed by `@`; the captured user then picks
`/root` or `/home/<user>`, and a non-match falls back to `~`. -/
def getRemoteHomePath (remote : String) : String :=
  let cs := remote.toList
  let u := cs.takeWhile (fun c => c ≠ '@')
  if u.length = 0 ∨ u.length = cs.length then "~"
  else if String.mk u = "root" then "/root"
  else "/home/" ++ String.mk u

/-- Modelled from the spec: the spec's remote home-directory hint
derivation (§4.4) for claim C4 — the repository has no host-info query
tool invocation, so the spec's words are embedded directly: a
`user@host` target derives `/root` or `/home/<user>` from its user
part; a bare host alias derives the hint from the effective remote
user resolved by a host-info query (`resolvedUser`), falling back to
`~` only when that resolution fails. -/
def remoteHomeHintSpec (remote : String) (resolvedUser : Option String) : String :=
  let cs := remote.toList
  let u := cs.takeWhile (fun c => c ≠ '@')
  if u.length = 0 ∨ u.length = cs.length then
    match resolvedUser with
    | some user => if user = "root" then "/root" else "/home/" ++ user
    | none => "~"
  else if String.mk u = "root" then "/root"
  else "/home/" ++ String.mk u

/-- Models `String.prototype.trim` of JS, modelled structurally: strip
leading and trailing whitespace. -/
def jsTrim (s : String) : String :=
  String.mk (((s.data.dropWhile Char.isWhitespace).reverse.dropWhile
    Char.isWhitespace).reverse)

/-- Result record of `saveLocal` (monitor.ts:138-150). -/
structure SaveResult where
  success : Bool
  path : String
deriving DecidableEq

/-- Embeds `saveLocal` (monitor.ts:138-150): the target path is
`<homedir>/clipshot-screenshots/<filename>`; the filesystem outcome of
`mkdirSync`/`writeFileSync` is the external parameter `fsOk` (the
`catch` arm yields `success = false` with the same attempted path). -/
def saveLocal (homedir filename : String) (fsOk : Bool) : SaveResult :=
  { success := fsOk, path := homedir ++ "/clipshot-screenshots/" ++ filename }

/-- Terminal outcome of the spawned ssh subprocess: the `close` event
with its exit code (`null` when the process was killed by a signal), or
the `error` event with its message. -/
inductive SpawnOutcome where
  | closed (code : Option Int)
  | errored (msg : String)
deriving DecidableEq

/-- Result record of `pipeToRemote` (monitor.ts:163-193). -/
structure RemoteResult where
  success : Bool
  path : String
  error : Option String
deriving DecidableEq

/-- Embeds `pipeToRemote` (monitor.ts:163-193): the clipboard path is built
from the derived home hint; success is exit code 0; on `close` the
collected stderr (trimmed, empty mapped to `undefined`) is attached,
and on the `error` event the error message is attached. -/
def pipeToRemote (remote filename : String) (outcome : SpawnOutcome)
    (stderrOut : String) : RemoteResult :=
  let homeDir := getRemoteHomePath remote
  let remotePath := homeDir ++ "/clipshot-screenshots/" ++ filename
  match outcome with
  | .closed code =>
    { success := decide (code = some 0)
      path := remotePath
      error := if jsTrim stderrOut = "" then none else some (jsTrim stderrOut) }
  | .errored msg => { success := false, path := remotePath, error := some msg }

/-- Outcome of an `execSync` tool invocation: the stdout string on
success, or the thrown error (non-zero exit, missing binary, timeout). -/
inductive ExecOutcome where
  | ok (stdout : String)
  | fail (err : String)
deriving DecidableEq

/-- Embeds `getClipboardImageWindows` (monitor.ts:66-96): the try block runs
PowerShell and trims its stdout; a nonempty result is base64-decoded
(decoding is the external parameter `b64`), an empty result is `null`,
and any thrown error (including timeouts) is caught to `null`. -/
def getClipboardImageWindows (b64 : String → List Nat) (exec : ExecOutcome) :
    Option (List Nat) :=
  match exec with
  | .fail _ => none
  | .ok stdout =>
    let result := jsTrim stdout
    if result.length > 0 then some (b64 result) else none

/-- Outcome of the `@crosscopy/clipboard` interaction inside
`getClipboardImageNative`'s try block: a thrown error (unavailable
module or failing call), `hasImage()` false, or the base64 payload
(possibly empty, which is falsy in JS). -/
inductive NativeOutcome where
  | err (msg : String)
  | noImage
  | gotBase64 (s : String)
deriving DecidableEq

/-- Embeds `getClipboardImageNative` (monitor.ts:98-115): no image and empty
payload yield `null`, and any thrown error is caught to `null`. -/
def getClipboardImageNative (b64 : String → List Nat) (o : NativeOutcome) :
    Option (List Nat) :=
  match o with
  | .err _ => none
  | .noImage => none
  | .gotBase64 s => if s.length = 0 then none else some (b64 s)

/-- Embeds `getClipboardImage` (monitor.ts:117-122): dispatch on the platform
flags `isWindows` and `isWSL()`. -/
def getClipboardImage (isWin wsl : Bool) (b64 : String → List Nat)
    (winExec : ExecOutcome) (native : NativeOutcome) : Option (List Nat) :=
  if isWin || wsl then getClipboardImageWindows b64 winExec
  else getClipboardImageNative b64 native

/-- One observable action of a tick: a `log` call or a
`copyToClipboard` call (the clipboard write is best-effort in the
source; the event records the attempt with its text). -/
inductive Event where
  | logMsg (msg : String)
  | clipWrite (text : String)
deriving DecidableEq

/-- Whether an event is a clipboard write. -/
def isClipWrite : Event → Bool
  | .clipWrite _ => true
  | .logMsg _ => false

/-- Whether an event is a log call. -/
def isLogMsg : Event → Bool
  | .logMsg _ => true
  | .clipWrite _ => false

/-- Whether an event is the clipboard-write confirmation log entry. -/
def isCopiedLog : Event → Bool
  | .logMsg s => s = "  -> Copied to clipboard"
  | .clipWrite _ => false

/-- The per-tick external world of `poll` (monitor.ts:250-294): the
acquisition result, the clock reading used for the filename, the local
filesystem outcome, and the ssh subprocess outcome with its collected
stderr. -/
structure TickEnv where
  acquired : Option (List Nat)
  now : DateTime
  localOk : Bool
  sshOutcome : SpawnOutcome
  sshStderr : String
deriving DecidableEq

/-- The delivery branch of `poll` (monitor.ts:263-289): the events
emitted once a novel image is being delivered, in source order. -/
def deliverEvents (remote homedir : String) (buf : List Nat) (env : TickEnv) :
    List Event :=
  let filename := generateFilename env.now
  let size := jsRoundKB buf.length
  let ev0 := Event.logMsg ("New screenshot: " ++ filename ++ " (" ++ natToDecStr size ++ "KB)")
  if remote = "local" then
    let result := saveLocal homedir filename env.localOk
    if result.success then
      [ev0, .logMsg ("  -> Saved: " ++ result.path), .clipWrite result.path,
        .logMsg "  -> Copied to clipboard"]
    else [ev0, .logMsg "  -> Failed to save locally"]
  else
    let result := pipeToRemote remote filename env.sshOutcome env.sshStderr
    if result.success then
      [ev0, .logMsg ("  -> Sent to " ++ remote ++ ":" ++ result.path),
        .clipWrite result.path, .logMsg "  -> Copied to clipboard"]
    else
      [ev0, .logMsg ("  -> Failed to send to " ++ remote)] ++
        (match result.error with
          | some e => [.logMsg ("  -> Error: " ++ e)]
          | none => [])

/-- One tick of `poll` (monitor.ts:250-294) as a pure step: a missing
image returns unchanged state with no events; a fingerprint tie is a
no-op; a novel fingerprint is stored immediately (monitor.ts:261,
before delivery) and the delivery branch runs. -/
def pollTick (md5 : List Nat → String) (remote homedir : String)
    (last : Option String) (env : TickEnv) : Option String × List Event :=
  match env.acquired with
  | none => (last, [])
  | some buf =>
    let currentHash := md5 buf
    if some currentHash ≠ last then
      (some currentHash, deliverEvents remote homedir buf env)
    else (last, [])

/-- Whether the tick's delivery would succeed, read off the external
outcomes exactly as `poll` does: the filesystem outcome for the local
sink, exit code 0 for the remote sink. -/
def deliverySucceeds (remote : String) (env : TickEnv) : Bool :=
  if remote = "local" then env.localOk
  else
    match env.sshOutcome with
    | .closed code => decide (code = some 0)
    | .errored _ => false

/-- The fingerprint a tick delivers, if it attempts a delivery: the
guard of monitor.ts:260. -/
def tickDelivered (md5 : List Nat → String) (last : Option String)
    (env : TickEnv) : Option String :=
  match env.acquired with
  | none => none
  | some buf => if some (md5 buf) ≠ last then some (md5 buf) else none

/-- Running `poll` over a sequence of tick environments, threading the
stored fingerprint and concatenating the event traces. -/
def pollRun (md5 : List Nat → String) (remote homedir : String) :
    Option String → List TickEnv → Option String × List Event
  | last, [] => (last, [])
  | last, env :: rest =>
    let r := pollTick md5 remote homedir last env
    let r' := pollRun md5 remote homedir r.1 rest
    (r'.1, r.2 ++ r'.2)

/-- The fingerprints of the deliveries a run attempts, in order. -/
def deliveredHashes (md5 : List Nat → String) (remote homedir : String) :
    Option String → List TickEnv → List String
  | _, [] => []
  | last, env :: rest =>
    let st := (pollTick md5 remote homedir last env).1
    match tickDelivered md5 last env with
    | some h => h :: deliveredHashes md5 remote homedir st rest
    | none => deliveredHashes md5 remote homedir st rest

/-- A tick of the guarded loop body: either the tick's external world,
or an exception surfacing at the tick boundary with the monitor state
`mid` left by the partially executed tick body. -/
inductive TickInput where
  | normal (env : TickEnv)
  | raises (msg : String) (mid : Option String)
deriving DecidableEq

/-- Whether a tick input is an exception. -/
def isRaises : TickInput → Bool
  | .raises _ _ => true
  | .normal _ => false

/-- The try/catch wrapper of `poll` (monitor.ts:251, 291-293): a normal
tick runs the body; an exception is caught and logged as
`Error: <message>`, and the call returns normally. -/
def pollCatch (md5 : List Nat → String) (remote homedir : String)
    (last : Option String) (inp : TickInput) : Option String × List Event :=
  match inp with
  | .normal env => pollTick md5 remote homedir last env
  | .raises msg mid => (mid, [Event.logMsg ("Error: " ++ msg)])

/-- The polling loop scheduled by `setInterval` (monitor.ts:297): every
tick input is consumed in order through the guarded body. -/
def monitorLoop (md5 : List Nat → String) (remote homedir : String) :
    Option String → List TickInput → Option String × List Event
  | last, [] => (last, [])
  | last, inp :: rest =>
    let r := pollCatch md5 remote homedir last inp
    let r' := monitorLoop md5 remote homedir r.1 rest
    (r'.1, r.2 ++ r'.2)

/-- The startup log lines of `startMonitor` (monitor.ts:235-243),
before the seeding acquisition and the first tick. -/
def startupEvents (remote homedir envName logFilePath : String) : List Event :=
  [Event.logMsg ("Starting monitor for: " ++ remote),
    Event.logMsg ("Environment: " ++ envName),
    Event.logMsg ("Log file: " ++ logFilePath)] ++
    (if remote = "local" then
      [Event.logMsg ("Saving to: " ++ homedir ++ "/clipshot-screenshots")]
    else []) ++
    [Event.logMsg "", Event.logMsg "Monitoring clipboard... (Ctrl+C to stop)",
      Event.logMsg ""]

/-- The seeding of `lastImageHash` from the single startup acquisition
(monitor.ts:244-248): the fingerprint is stored without any delivery. -/
def initialLastHash (md5 : List Nat → String) (initialImage : Option (List Nat)) :
    Option String :=
  match initialImage with
  | some b => some (md5 b)
  | none => none

/-- Whether an event belongs to a delivery (a clipboard write, or a log
line of the delivery branch: `New screenshot: ...` or an indented
`  -> ...` line). -/
def isDeliveryLog (e : Event) : Bool :=
  match e with
  | .clipWrite _ => true
  | .logMsg s =>
    List.isPrefixOf ("New screenshot: ".data) s.data ||
      List.isPrefixOf ("  -> ".data) s.data

/-- Modelled from the spec: one observed screenshot file of the macOS
file-watch image source (§4.2), which is absent from src/ — a
modification time and the file's bytes. -/
structure FileInfo where
  mtime : Nat
  bytes : List Nat
deriving DecidableEq

/-- Modelled from the spec: the debounce window of the macOS file-watch
source (300 ms). -/
def DEBOUNCE_MS : Nat := 300

/-- Modelled from the spec: the file with the newest modification time
in the watched directory listing. -/
def newestFile : List FileInfo → Option FileInfo
  | [] => none
  | f :: rest =>
    match newestFile rest with
    | none => some f
    | some g => if g.mtime > f.mtime then some g else some f

/-- Modelled from the spec: `acquire()` of the macOS file-watch source
(§4.2), absent from src/ — lists the directory, takes the newest file,
skips it while younger than the debounce window, returns its bytes only
when its modification time is strictly newer than the last-seen value,
and updates the last-seen time as a side effect of returning bytes. -/
def fileWatchAcquire (lastSeen : Nat) (files : List FileInfo) (nowMs : Nat) :
    Option (List Nat) × Nat :=
  match newestFile files with
  | none => (none, lastSeen)
  | some f =>
    if nowMs - f.mtime < DEBOUNCE_MS then (none, lastSeen)
    else if f.mtime > lastSeen then (some f.bytes, f.mtime)
    else (none, lastSeen)

/-- A concrete stand-in for the external md5 primitive, used by the
concrete witnesses (the monitor theorems hold for every hash
function). -/
def md5c (b : List Nat) : String := String.mk (b.map fun n => digitChar (n % 10))

/-- A concrete clock reading for witnesses. -/
def dt0 : DateTime := ⟨2025, 3, 7, 14, 30, 52, 123⟩

/-- A concrete later clock reading for witnesses. -/
def dt1 : DateTime := ⟨2025, 3, 7, 15, 31, 52, 123⟩

/-- The stored fingerprint after a tick is the delivered fingerprint
when a delivery was attempted, and unchanged otherwise. -/
theorem pollTick_fst (md5 : List Nat → String) (remote homedir : String)
    (last : Option String) (env : TickEnv) :
    (pollTick md5 remote homedir last env).1 =
      (match tickDelivered md5 last env with
        | some h => some h
        | none => last) := by
  unfold pollTick tickDelivered
  cases env.acquired with
  | none => rfl
  | some buf =>
    by_cases h : some (md5 buf) ≠ last
    · simp only [if_pos h]
    · simp only [if_neg h]

/-- The first delivered fingerprint of a run differs from the
fingerprint stored when the run started. -/
theorem deliveredHashes_head_ne (md5 : List Nat → String) (remote homedir : String) :
    ∀ (envs : List TickEnv) (last : Option String) (h : String) (tl : List String),
      deliveredHashes md5 remote homedir last envs = h :: tl → some h ≠ last := by
  intro envs
  induction envs with
  | nil => intro last h tl he; simp [deliveredHashes] at he
  | cons env rest ih =>
    intro last h tl he
    unfold deliveredHashes at he
    cases hd : tickDelivered md5 last env with
    | some g =>
      rw [hd] at he
      injection he with h1 _
      subst h1
      unfold tickDelivered at hd
      cases ha : env.acquired with
      | none => rw [ha] at hd; cases hd
      | some buf =>
        rw [ha] at hd
        dsimp only at hd
        by_cases hne : some (md5 buf) ≠ last
        · rw [if_pos hne] at hd
          injection hd with hg
          subst hg
          exact hne
        · rw [if_neg hne] at hd; cases hd
    | none =>
      rw [hd] at he
      have hst : (pollTick md5 remote homedir last env).1 = last := by
        rw [pollTick_fst, hd]
      rw [hst] at he
      exact ih last h tl he

/-- Consecutive attempted deliveries always carry distinct
fingerprints. -/
theorem deliveredHashes_chain (md5 : List Nat → String) (remote homedir : String) :
    ∀ (envs : List TickEnv) (last : Option String),
      List.Chain' (fun a b => a ≠ b) (deliveredHashes md5 remote homedir last envs) := by
  intro envs
  induction envs with
  | nil => intro last; simp [deliveredHashes]
  | cons env rest ih =>
    intro last
    unfold deliveredHashes
    cases hd : tickDelivered md5 last env with
    | none => exact ih _
    | some g =>
      rw [List.chain'_cons']
      refine ⟨?_, ih _⟩
      intro y hy
      cases hh : deliveredHashes md5 remote homedir (pollTick md5 remote homedir last env).1 rest with
      | nil => rw [hh] at hy; cases hy
      | cons h tl =>
        rw [hh] at hy
        simp only [List.head?_cons, Option.mem_def, Option.some.injEq] at hy
        have hne := deliveredHashes_head_ne md5 remote homedir rest _ h tl hh
        have hst : (pollTick md5 remote homedir last env).1 = some g := by
          rw [pollTick_fst, hd]
        rw [hst] at hne
        rw [← hy]
        intro he
        exact hne (by rw [he])

/-- C3: for every sequence of acquired byte buffers, the change
detector delivers a fingerprint at most once until a different one is
seen — two consecutive attempted deliveries never carry the same
fingerprint — and a tick whose acquired fingerprint equals the stored
one is a no-op (state unchanged, no events, no error). -/
theorem change_detector_spec (md5 : List Nat → String) (remote homedir : String)
    (last : Option String) (envs : List TickEnv) :
    List.Chain' (fun a b => a ≠ b) (deliveredHashes md5 remote homedir last envs) ∧
    (∀ (env : TickEnv) (b : List Nat), env.acquired = some b →
      some (md5 b) = last → pollTick md5 remote homedir last env = (last, [])) := by
  refine ⟨deliveredHashes_chain md5 remote homedir envs last, ?_⟩
  intro env b ha he
  unfold pollTick
  rw [ha]
  simp [he]

/-- C3 witness: a concrete fingerprint tie is a no-op tick. -/
theorem change_detector_spec_witness :
    pollTick md5c "local" "/home/u" (some (md5c [7]))
      ⟨some [7], dt0, true, .closed (some 0), ""⟩ = (some (md5c [7]), []) :=
  (change_detector_spec md5c "local" "/home/u" (some (md5c [7])) []).2
    ⟨some [7], dt0, true, .closed (some 0), ""⟩ [7] rfl rfl

/-- A tick that acquires a novel fingerprint stores it and runs the
delivery branch. -/
theorem pollTick_deliver (md5 : List Nat → String) (remote homedir : String)
    (last : Option String) (env : TickEnv) (b : List Nat)
    (hacq : env.acquired = some b) (hnew : some (md5 b) ≠ last) :
    pollTick md5 remote homedir last env =
      (some (md5 b), deliverEvents remote homedir b env) := by
  unfold pollTick
  rw [hacq]
  dsimp only
  rw [if_pos hnew]

/-- The event trace of a failed remote delivery. -/
theorem deliverEvents_remote_fail (remote homedir : String) (b : List Nat) (env : TickEnv)
    (hrem : remote ≠ "local")
    (hfail : (pipeToRemote remote (generateFilename env.now) env.sshOutcome
      env.sshStderr).success = false) :
    deliverEvents remote homedir b env =
      [Event.logMsg ("New screenshot: " ++ generateFilename env.now ++ " (" ++
          natToDecStr (jsRoundKB b.length) ++ "KB)"),
        Event.logMsg ("  -> Failed to send to " ++ remote)] ++
        (match (pipeToRemote remote (generateFilename env.now) env.sshOutcome
            env.sshStderr).error with
          | some e => [Event.logMsg ("  -> Error: " ++ e)]
          | none => []) := by
  unfold deliverEvents
  rw [if_neg hrem, if_neg (by simp [hfail])]

/-- C2: when the ssh transport exits with a non-zero code, the tick
performs no clipboard write, logs a line containing the target
identifier, stores the failed image's fingerprint, and a next tick
acquiring the same bytes is a no-op (no re-delivery). -/
theorem remote_failure_no_retry (md5 : List Nat → String) (remote homedir : String)
    (last : Option String) (env : TickEnv) (b : List Nat) (c : Int)
    (hrem : remote ≠ "local")
    (hacq : env.acquired = some b)
    (hnew : some (md5 b) ≠ last)
    (hout : env.sshOutcome = SpawnOutcome.closed (some c))
    (hc : c ≠ 0) :
    (pollTick md5 remote homedir last env).1 = some (md5 b) ∧
    (pollTick md5 remote homedir last env).2.countP isClipWrite = 0 ∧
    Event.logMsg ("  -> Failed to send to " ++ remote) ∈
      (pollTick md5 remote homedir last env).2 ∧
    (∀ env' : TickEnv, env'.acquired = some b →
      pollTick md5 remote homedir (pollTick md5 remote homedir last env).1 env' =
        ((pollTick md5 remote homedir last env).1, [])) := by
  have hfail : (pipeToRemote remote (generateFilename env.now) env.sshOutcome
      env.sshStderr).success = false := by
    rw [hout]
    simp [pipeToRemote, hc]
  have hstep := pollTick_deliver md5 remote homedir last env b hacq hnew
  have hev := deliverEvents_remote_fail remote homedir b env hrem hfail
  refine ⟨by rw [hstep], ?_, ?_, ?_⟩
  · rw [hstep]
    dsimp only
    rw [hev]
    cases herr : (pipeToRemote remote (generateFilename env.now) env.sshOutcome
        env.sshStderr).error with
    | none => simp [List.countP_cons, isClipWrite]
    | some e => simp [List.countP_cons, isClipWrite]
  · rw [hstep]
    dsimp only
    rw [hev]
    simp
  · intro env' hacq'
    rw [hstep]
    dsimp only
    unfold pollTick
    rw [hacq']
    dsimp only
    rw [if_neg (by simp)]

/-- C2 witness: a concrete failed remote delivery (exit code 1) logs
the target identifier. -/
theorem remote_failure_no_retry_witness :
    Event.logMsg ("  -> Failed to send to " ++ "alice@h") ∈
      (pollTick md5c "alice@h" "/home/u" none
        ⟨some [2], dt0, true, .closed (some 1), " denied "⟩).2 :=
  (remote_failure_no_retry md5c "alice@h" "/home/u" none
    ⟨some [2], dt0, true, .closed (some 1), " denied "⟩ [2] 1
    (by decide) rfl (by decide) rfl (by decide)).2.2.1

/-- The characters of a string are a prefix of the characters of any
extension of it. -/
theorem data_prefix_append (s t : String) : s.data <+: (s ++ t).data := by
  rw [String.data_append]
  exact List.prefix_append _ _

/-- A character list is a computed prefix of itself extended. -/
theorem isPrefixOf_append_self (l t : List Char) :
    List.isPrefixOf l (l ++ t) = true := by
  induction l with
  | nil =>
    show List.isPrefixOf [] t = true
    cases t <;> rfl
  | cons a as ih =>
    show (a == a && List.isPrefixOf as (as ++ t)) = true
    rw [ih, beq_self_eq_true]
    rfl

/-- A string starting with a given run of characters cannot equal a
string that run does not start. -/
theorem ne_of_leading (a s b : String) (hp : a.data <+: s.data)
    (h : List.isPrefixOf a.data b.data = false) : s ≠ b := by
  intro he
  rw [he] at hp
  obtain ⟨t, ht⟩ := hp
  rw [← ht, isPrefixOf_append_self] at h
  cases h

/-- The `New screenshot:` log line is not the confirmation line. -/
theorem isCopiedLog_new (f n : String) :
    isCopiedLog (Event.logMsg
      ("New screenshot: " ++ f ++ " (" ++ n ++ "KB)")) = false := by
  unfold isCopiedLog
  refine decide_eq_false (ne_of_leading "New screenshot: " _ _ ?_ (by decide))
  exact ((data_prefix_append "New screenshot: " f).trans
    (data_prefix_append _ " (")).trans
    ((data_prefix_append _ n).trans (data_prefix_append _ "KB)"))

/-- The `Saved:` log line is not the confirmation line. -/
theorem isCopiedLog_saved (x : String) :
    isCopiedLog (Event.logMsg ("  -> Saved: " ++ x)) = false := by
  unfold isCopiedLog
  exact decide_eq_false
    (ne_of_leading "  -> Saved: " _ _ (data_prefix_append _ x) (by decide))

/-- The `Sent to` log line is not the confirmation line. -/
theorem isCopiedLog_sent (r p : String) :
    isCopiedLog (Event.logMsg ("  -> Sent to " ++ r ++ ":" ++ p)) = false := by
  unfold isCopiedLog
  refine decide_eq_false (ne_of_leading "  -> Sent to " _ _ ?_ (by decide))
  exact ((data_prefix_append "  -> Sent to " r).trans
    (data_prefix_append _ ":")).trans (data_prefix_append _ p)

/-- The `Failed to send` log line is not the confirmation line. -/
theorem isCopiedLog_failedSend (x : String) :
    isCopiedLog (Event.logMsg ("  -> Failed to send to " ++ x)) = false := by
  unfold isCopiedLog
  exact decide_eq_false
    (ne_of_leading "  -> Failed to send to " _ _ (data_prefix_append _ x) (by decide))

/-- The `Error:` log line is not the confirmation line. -/
theorem isCopiedLog_error (x : String) :
    isCopiedLog (Event.logMsg ("  -> Error: " ++ x)) = false := by
  unfold isCopiedLog
  exact decide_eq_false
    (ne_of_leading "  -> Error: " _ _ (data_prefix_append _ x) (by decide))

/-- The `Failed to save locally` log line is not the confirmation
line. -/
theorem isCopiedLog_failedLocal :
    isCopiedLog (Event.logMsg "  -> Failed to save locally") = false := by decide

/-- The confirmation line is recognized by `isCopiedLog`. -/
theorem isCopiedLog_copied :
    isCopiedLog (Event.logMsg "  -> Copied to clipboard") = true := by decide

/-- A clipboard write is not a confirmation log entry. -/
theorem isCopiedLog_clip (p : String) :
    isCopiedLog (Event.clipWrite p) = false := rfl

/-- C1 (amended): a tick that attempts a delivery performs, when the
delivery succeeds, exactly one clipboard write and exactly one
confirmation log entry, the write immediately before that entry; when
the delivery fails it performs no clipboard write and no confirmation
entry. -/
theorem delivery_write_then_confirm (md5 : List Nat → String) (remote homedir : String)
    (last : Option String) (env : TickEnv) (b : List Nat)
    (hacq : env.acquired = some b) (hnew : some (md5 b) ≠ last) :
    (deliverySucceeds remote env = true →
      (pollTick md5 remote homedir last env).2.countP isClipWrite = 1 ∧
      (pollTick md5 remote homedir last env).2.countP isCopiedLog = 1 ∧
      ∃ p pre post, (pollTick md5 remote homedir last env).2 =
        pre ++ Event.clipWrite p :: Event.logMsg "  -> Copied to clipboard" :: post) ∧
    (deliverySucceeds remote env = false →
      (pollTick md5 remote homedir last env).2.countP isClipWrite = 0 ∧
      (pollTick md5 remote homedir last env).2.countP isCopiedLog = 0) := by
  have hstep := pollTick_deliver md5 remote homedir last env b hacq hnew
  rw [hstep]
  dsimp only
  unfold deliverySucceeds deliverEvents
  by_cases hrem : remote = "local"
  · rw [if_pos hrem, if_pos hrem]
    cases hok : env.localOk with
    | true =>
      refine ⟨fun _ => ?_, fun hfalse => by cases hfalse⟩
      simp only [saveLocal, if_pos rfl]
      refine ⟨?_, ?_, ?_⟩
      · simp [List.countP_cons, isClipWrite]
      · simp [List.countP_cons, isCopiedLog_new, isCopiedLog_saved,
          isCopiedLog_copied, isCopiedLog_clip]
      · refine ⟨homedir ++ "/clipshot-screenshots/" ++ generateFilename env.now,
          [Event.logMsg ("New screenshot: " ++ generateFilename env.now ++ " (" ++
            natToDecStr (jsRoundKB b.length) ++ "KB)"),
           Event.logMsg ("  -> Saved: " ++
            (homedir ++ "/clipshot-screenshots/" ++ generateFilename env.now))],
          [], ?_⟩
        rfl
    | false =>
      refine ⟨(fun htrue => nomatch htrue), fun _ => ?_⟩
      simp only [saveLocal]
      refine ⟨?_, ?_⟩
      · simp [List.countP_cons, isClipWrite]
      · simp [List.countP_cons, isCopiedLog_new, isCopiedLog_failedLocal]
  · rw [if_neg hrem, if_neg hrem]
    cases hout : env.sshOutcome with
    | closed code =>
      by_cases hcode : code = some 0
      · subst hcode
        refine ⟨fun _ => ?_, fun hfalse => by simp at hfalse⟩
        simp only [pipeToRemote, decide_eq_true_eq]
        rw [if_pos (by simp)]
        refine ⟨?_, ?_, ?_⟩
        · simp [List.countP_cons, isClipWrite]
        · simp [List.countP_cons, isCopiedLog_new, isCopiedLog_sent,
            isCopiedLog_copied, isCopiedLog_clip]
        · refine ⟨getRemoteHomePath remote ++ "/clipshot-screenshots/" ++
            generateFilename env.now,
            [Event.logMsg ("New screenshot: " ++ generateFilename env.now ++ " (" ++
              natToDecStr (jsRoundKB b.length) ++ "KB)"),
             Event.logMsg ("  -> Sent to " ++ remote ++ ":" ++
              (getRemoteHomePath remote ++ "/clipshot-screenshots/" ++
                generateFilename env.now))],
            [], ?_⟩
          rfl
      · refine ⟨fun htrue => absurd htrue (by simp [hcode]), fun _ => ?_⟩
        simp only [pipeToRemote]
        rw [if_neg (by simp [hcode])]
        cases hstderr : (if jsTrim env.sshStderr = "" then none
            else some (jsTrim env.sshStderr) : Option String) with
        | none =>
          refine ⟨?_, ?_⟩
          · simp [List.countP_cons, isClipWrite]
          · simp [List.countP_cons, isCopiedLog_new, isCopiedLog_failedSend]
        | some e =>
          refine ⟨?_, ?_⟩
          · simp [List.countP_cons, isClipWrite]
          · simp [List.countP_cons, isCopiedLog_new, isCopiedLog_failedSend,
              isCopiedLog_error]
    | errored msg =>
      refine ⟨(fun htrue => nomatch htrue), fun _ => ?_⟩
      simp only [pipeToRemote]
      rw [if_neg (by simp)]
      refine ⟨?_, ?_⟩
      · simp [List.countP_cons, isClipWrite]
      · simp [List.countP_cons, isCopiedLog_new, isCopiedLog_failedSend,
          isCopiedLog_error]

/-- C1 counterexample: a tick whose delivery is attempted and fails
still appends log entries (two of them), refuting the claim that a
failed delivery triggers neither a clipboard write nor a log entry. -/
theorem delivery_write_then_confirm_counterexample :
    tickDelivered md5c none ⟨some [0], dt0, false, .closed (some 0), ""⟩ =
      some (md5c [0]) ∧
    deliverySucceeds "local" ⟨some [0], dt0, false, .closed (some 0), ""⟩ = false ∧
    (pollTick md5c "local" "/home/u" none
      ⟨some [0], dt0, false, .closed (some 0), ""⟩).2.countP isLogMsg = 2 := by
  refine ⟨rfl, rfl, rfl⟩

/-- C1 witness: a concrete successful local delivery performs exactly
one clipboard write and one confirmation log entry. -/
theorem delivery_write_then_confirm_witness :
    (pollTick md5c "local" "/home/u" none
      ⟨some [1], dt0, true, .closed (some 1), "x"⟩).2.countP isClipWrite = 1 ∧
    (pollTick md5c "local" "/home/u" none
      ⟨some [1], dt0, true, .closed (some 1), "x"⟩).2.countP isCopiedLog = 1 := by
  have h := (delivery_write_then_confirm md5c "local" "/home/u" none
    ⟨some [1], dt0, true, .closed (some 1), "x"⟩ [1] rfl (by decide)).1 rfl
  exact ⟨h.1, h.2.1⟩

/-- The `takeWhile` of the non-`@` predicate stops exactly at the first
`@`. -/
theorem takeWhile_until_at (l₁ l₂ : List Char) (h : ∀ c ∈ l₁, c ≠ '@') :
    (l₁ ++ '@' :: l₂).takeWhile (fun c => c ≠ '@') = l₁ := by
  induction l₁ with
  | nil => simp [List.takeWhile_cons]
  | cons a as ih =>
    have ha : a ≠ '@' := h a (List.mem_cons_self a as)
    rw [List.cons_append, List.takeWhile_cons, if_pos (decide_eq_true ha),
      ih (fun c hc => h c (List.mem_cons_of_mem a hc))]

/-- The `takeWhile` of the non-`@` predicate keeps a list without `@`
whole. -/
theorem takeWhile_all_ne (l : List Char) (h : ∀ c ∈ l, c ≠ '@') :
    l.takeWhile (fun c => c ≠ '@') = l := by
  induction l with
  | nil => rfl
  | cons a as ih =>
    have ha : a ≠ '@' := h a (List.mem_cons_self a as)
    rw [List.takeWhile_cons, if_pos (decide_eq_true ha),
      ih (fun c hc => h c (List.mem_cons_of_mem a hc))]

/-- C4 counterexample: for the bare host alias `devbox` the code
returns `~` even though a successful resolution of the effective
remote user (here `alice`) would, per the spec, yield `/home/alice`;
the code performs no resolution attempt at all. -/
theorem remote_home_hint_counterexample :
    getRemoteHomePath "devbox" = "~" ∧
    remoteHomeHintSpec "devbox" (some "alice") = "/home/alice" ∧
    ("/home/alice" : String) ≠ "~" := by
  refine ⟨by decide, by decide, by decide⟩

/-- C4 (amended): for a `user@host` target the hint is `/root` when
the user is `root` and `/home/<user>` otherwise; for a bare host alias
(no `@`) the code returns `~` unconditionally, attempting no remote
user resolution. -/
theorem remote_home_path_amended (user host : String)
    (hu : user.data ≠ []) (hat : '@' ∉ user.data) :
    getRemoteHomePath (user ++ "@" ++ host) =
      (if user = "root" then "/root" else "/home/" ++ user) ∧
    (∀ remote : String, '@' ∉ remote.data → getRemoteHomePath remote = "~") := by
  constructor
  · unfold getRemoteHomePath
    have hdata : (user ++ "@" ++ host).toList = user.data ++ '@' :: host.data := by
      show (user ++ "@" ++ host).data = _
      rw [String.data_append, String.data_append, List.append_assoc]
      rfl
    rw [hdata]
    dsimp only
    rw [takeWhile_until_at user.data host.data
      (fun c hc he => hat (he ▸ hc))]
    rw [if_neg ?hcond]
    case hcond =>
      push_neg
      refine ⟨fun h0 => hu (List.length_eq_zero.mp h0), ?_⟩
      rw [List.length_append, List.length_cons]
      omega
  · intro remote hrem
    unfold getRemoteHomePath
    dsimp only
    rw [takeWhile_all_ne remote.toList (fun c hc he => hrem (he ▸ hc))]
    rw [if_pos (Or.inr rfl)]

/-- C4 witness: concrete `user@host` and bare-alias derivations. -/
theorem remote_home_path_amended_witness :
    getRemoteHomePath ("alice" ++ "@" ++ "h") = "/home/alice" ∧
    getRemoteHomePath "devbox" = "~" := by
  have h := remote_home_path_amended "alice" "h" (by decide) (by decide)
  exact ⟨h.1.trans (by decide), h.2 "devbox" (by decide)⟩

/-- C5: a newest file younger than the 300 ms debounce window is never
returned; once the window has elapsed and its modification time is
strictly newer than the last-seen value it is returned exactly once —
the last-seen time is updated to its modification time, after which the
same listing never returns it again. -/
theorem file_watch_debounce_once (lastSeen : Nat) (files : List FileInfo)
    (nowMs : Nat) (f : FileInfo) (hnew : newestFile files = some f) :
    (nowMs - f.mtime < DEBOUNCE_MS →
      (fileWatchAcquire lastSeen files nowMs).1 = none) ∧
    (DEBOUNCE_MS ≤ nowMs - f.mtime → lastSeen < f.mtime →
      fileWatchAcquire lastSeen files nowMs = (some f.bytes, f.mtime) ∧
      ∀ nowMs' : Nat, (fileWatchAcquire f.mtime files nowMs').1 = none) := by
  constructor
  · intro hdb
    unfold fileWatchAcquire
    rw [hnew]
    dsimp only
    rw [if_pos hdb]
  · intro hdb hlast
    constructor
    · unfold fileWatchAcquire
      rw [hnew]
      dsimp only
      rw [if_neg (by omega), if_pos hlast]
    · intro nowMs'
      unfold fileWatchAcquire
      rw [hnew]
      dsimp only
      by_cases h : nowMs' - f.mtime < DEBOUNCE_MS
      · rw [if_pos h]
      · rw [if_neg h, if_neg (by omega)]

/-- C5 witness: a file 300 ms old with a newer modification time than
the last-seen value is returned with the last-seen time updated. -/
theorem file_watch_debounce_once_witness :
    fileWatchAcquire 0 [⟨1000, [9]⟩] 1300 = (some [9], 1000) :=
  ((file_watch_debounce_once 0 [⟨1000, [9]⟩] 1300 ⟨1000, [9]⟩ rfl).2
    (by decide) (by decide)).1

/-- C6: for a log session started at `startMs`, a log call 61 minutes
later opens a new, distinct log file; a call 30 minutes later reuses
the session's file; the rotation threshold is exactly one hour — age
equal to one hour still reuses the file, one millisecond beyond opens a
new one. -/
theorem log_rotation_threshold (homedir : String) (startMs : Nat)
    (d1 d2 d3 : DateTime) (hslug : isoSlugChars d1 ≠ isoSlugChars d2) :
    logStep homedir ⟨some (createNewLogFile homedir d1), startMs⟩
        (startMs + 61 * 60 * 1000) d2 =
      (⟨some (createNewLogFile homedir d2), startMs + 61 * 60 * 1000⟩,
        createNewLogFile homedir d2) ∧
    createNewLogFile homedir d2 ≠ createNewLogFile homedir d1 ∧
    logStep homedir ⟨some (createNewLogFile homedir d1), startMs⟩
        (startMs + 30 * 60 * 1000) d3 =
      (⟨some (createNewLogFile homedir d1), startMs⟩,
        createNewLogFile homedir d1) ∧
    logStep homedir ⟨some (createNewLogFile homedir d1), startMs⟩
        (startMs + LOG_MAX_AGE_MS) d3 =
      (⟨some (createNewLogFile homedir d1), startMs⟩,
        createNewLogFile homedir d1) ∧
    (logStep homedir ⟨some (createNewLogFile homedir d1), startMs⟩
        (startMs + LOG_MAX_AGE_MS + 1) d3).2 = createNewLogFile homedir d3 := by
  refine ⟨?_, ?_, ?_, ?_, ?_⟩
  · unfold logStep
    dsimp only
    rw [if_pos (by simp only [LOG_MAX_AGE_MS]; omega)]
  · intro heq
    apply hslug
    have h2 : (createNewLogFile homedir d2).data =
        (createNewLogFile homedir d1).data := by rw [heq]
    unfold createNewLogFile getLogDir at h2
    simp only [String.data_append] at h2
    exact (List.append_cancel_left (List.append_cancel_right h2)).symm
  · unfold logStep
    dsimp only
    rw [if_neg (by simp only [LOG_MAX_AGE_MS]; omega)]
  · unfold logStep
    dsimp only
    rw [if_neg (by omega)]
  · unfold logStep
    dsimp only
    rw [if_pos (by omega)]

/-- C6 witness: concrete distinct log files an hour and a minute
apart. -/
theorem log_rotation_threshold_witness :
    createNewLogFile "/h" dt1 ≠ createNewLogFile "/h" dt0 :=
  (log_rotation_threshold "/h" 0 dt0 dt1 dt0 (by decide)).2.1

/-- C7: an exception raised during a tick is caught at the tick
boundary and logged as an `Error:` line, and the loop processes the
remaining ticks exactly as it would have from the state the tick left;
moreover every raising tick contributes its log line, so the loop's
trace grows with every exception instead of the loop terminating. -/
theorem tick_fault_isolation (md5 : List Nat → String) (remote homedir : String)
    (last : Option String) (msg : String) (mid : Option String)
    (rest : List TickInput) (inputs : List TickInput) :
    monitorLoop md5 remote homedir last (TickInput.raises msg mid :: rest) =
      ((monitorLoop md5 remote homedir mid rest).1,
        Event.logMsg ("Error: " ++ msg) ::
          (monitorLoop md5 remote homedir mid rest).2) ∧
    inputs.countP isRaises ≤ (monitorLoop md5 remote homedir last inputs).2.length := by
  constructor
  · rfl
  · induction inputs generalizing last with
    | nil => simp [monitorLoop]
    | cons inp rest' ih =>
      cases inp with
      | normal env =>
        simp only [monitorLoop, List.countP_cons, isRaises, pollCatch,
          List.length_append, Bool.false_eq_true, if_false]
        have h := ih ((pollTick md5 remote homedir last env).1)
        omega
      | raises m s =>
        simp only [monitorLoop, List.countP_cons, isRaises, pollCatch,
          List.length_append, if_true, List.length_cons, List.length_nil]
        have h := ih s
        omega

/-- C8: every variant of the image acquisition converts tool failure
(a thrown error, which includes timeouts), absence of an image, and an
empty payload into `none`, and the platform dispatch returns whatever
the selected variant returns — the result is always bytes or `none`,
never an escaping exception. -/
theorem clipboard_acquire_total (b64 : String → List Nat) :
    (∀ e : String, getClipboardImageWindows b64 (ExecOutcome.fail e) = none) ∧
    (∀ s : String, jsTrim s = "" →
      getClipboardImageWindows b64 (ExecOutcome.ok s) = none) ∧
    (∀ e : String, getClipboardImageNative b64 (NativeOutcome.err e) = none) ∧
    getClipboardImageNative b64 NativeOutcome.noImage = none ∧
    (∀ s : String, s.length = 0 →
      getClipboardImageNative b64 (NativeOutcome.gotBase64 s) = none) ∧
    (∀ (isWin wsl : Bool) (w : ExecOutcome) (n : NativeOutcome),
      getClipboardImage isWin wsl b64 w n =
        if isWin || wsl then getClipboardImageWindows b64 w
        else getClipboardImageNative b64 n) := by
  refine ⟨fun e => rfl, ?_, fun e => rfl, rfl, ?_, fun w v we n => rfl⟩
  · intro s hs
    unfold getClipboardImageWindows
    dsimp only
    rw [hs]
    rfl
  · intro s hs
    unfold getClipboardImageNative
    dsimp only
    rw [if_pos hs]

/-- C8 witness: whitespace-only tool output yields no image. -/
theorem clipboard_acquire_total_witness :
    getClipboardImageWindows (fun s => s.data.map Char.toNat)
      (ExecOutcome.ok "  ") = none :=
  (clipboard_acquire_total (fun s => s.data.map Char.toNat)).2.1 "  " (by decide)

/-- C9: the startup log lines contain no delivery event (no clipboard
write and no delivery log line); the single startup acquisition seeds
the stored fingerprint without delivering; and any run of subsequent
ticks that only ever acquires the same bytes (or nothing) produces no
events at all — the image present at start is never delivered unless
the clipboard content changes. -/
theorem startup_seeding (md5 : List Nat → String) (remote homedir envName lf : String)
    (b : List Nat) :
    (startupEvents remote homedir envName lf).countP isDeliveryLog = 0 ∧
    initialLastHash md5 (some b) = some (md5 b) ∧
    (∀ envs : List TickEnv, (∀ e ∈ envs, e.acquired = none ∨ e.acquired = some b) →
      (pollRun md5 remote homedir (initialLastHash md5 (some b)) envs).2 = []) := by
  refine ⟨?_, rfl, ?_⟩
  · unfold startupEvents
    by_cases h : remote = "local"
    · rw [if_pos h]
      rfl
    · rw [if_neg h]
      rfl
  · intro envs
    induction envs with
    | nil => intro _; rfl
    | cons env rest ih =>
      intro hall
      have henv := hall env (List.mem_cons_self env rest)
      have hrest : ∀ e ∈ rest, e.acquired = none ∨ e.acquired = some b :=
        fun e he => hall e (List.mem_cons_of_mem env he)
      have htick : pollTick md5 remote homedir (initialLastHash md5 (some b)) env =
          (initialLastHash md5 (some b), []) := by
        cases henv with
        | inl h => unfold pollTick; rw [h]
        | inr h =>
          unfold pollTick
          rw [h]
          dsimp only
          rw [if_neg (by simp [initialLastHash])]
      simp only [pollRun]
      rw [htick]
      simp only [List.nil_append]
      exact ih hrest

/-- C9 witness: a concrete run seeded with the startup image acquires
the same bytes again and emits nothing. -/
theorem startup_seeding_witness :
    (pollRun md5c "local" "/home/u" (initialLastHash md5c (some [3]))
      [⟨some [3], dt0, true, .closed (some 0), ""⟩,
       ⟨none, dt0, true, .closed (some 0), ""⟩]).2 = [] :=
  (startup_seeding md5c "local" "/home/u" "Native" "lf" [3]).2.2
    [⟨some [3], dt0, true, .closed (some 0), ""⟩,
     ⟨none, dt0, true, .closed (some 0), ""⟩]
    (by decide)

/-- A dashed digit character is a digit, `T`, or a hyphen. -/
theorem slugChar_digit_ok (x : Nat) :
    ((dashify (digitChar (x % 10))).isDigit ||
      dashify (digitChar (x % 10)) == 'T' ||
      dashify (digitChar (x % 10)) == '-') = true := by
  have h : ∀ m, m < 10 → ((dashify (digitChar m)).isDigit ||
      dashify (digitChar m) == 'T' || dashify (digitChar m) == '-') = true := by
    decide
  exact h _ (Nat.mod_lt _ (by decide))

/-- The hyphen satisfies the slug character set. -/
theorem slugChar_dash_ok :
    (('-' : Char).isDigit || ('-' : Char) == 'T' || ('-' : Char) == '-') = true := by
  decide

/-- The letter `T` satisfies the slug character set. -/
theorem slugChar_T_ok :
    (('T' : Char).isDigit || ('T' : Char) == 'T' || ('T' : Char) == '-') = true := by
  decide

/-- A dashed digit character is alphanumeric, a hyphen, or a dot. -/
theorem slugChar_digit_alnum (x : Nat) :
    ((dashify (digitChar (x % 10))).isAlphanum ||
      dashify (digitChar (x % 10)) == '-' ||
      dashify (digitChar (x % 10)) == '.') = true := by
  have h : ∀ m, m < 10 → ((dashify (digitChar m)).isAlphanum ||
      dashify (digitChar m) == '-' || dashify (digitChar m) == '.') = true := by
    decide
  exact h _ (Nat.mod_lt _ (by decide))

/-- The hyphen satisfies the filename character set. -/
theorem slugChar_dash_alnum :
    (('-' : Char).isAlphanum || ('-' : Char) == '-' || ('-' : Char) == '.') = true := by
  decide

/-- The letter `T` satisfies the filename character set. -/
theorem slugChar_T_alnum :
    (('T' : Char).isAlphanum || ('T' : Char) == '-' || ('T' : Char) == '.') = true := by
  decide

/-- The timestamp slug spelled out: four year digits, then dashed
month, day, hour, minute and second pairs, with `T` before the hour —
the `slice(0, 19)` cut ends exactly after the seconds pair. -/
theorem isoSlugChars_explicit (d : DateTime) :
    isoSlugChars d =
      [dashify (digitChar (d.year / 1000 % 10)),
       dashify (digitChar (d.year / 100 % 10)),
       dashify (digitChar (d.year / 10 % 10)),
       dashify (digitChar (d.year % 10)), '-',
       dashify (digitChar (d.month / 10 % 10)),
       dashify (digitChar (d.month % 10)), '-',
       dashify (digitChar (d.day / 10 % 10)),
       dashify (digitChar (d.day % 10)), 'T',
       dashify (digitChar (d.hour / 10 % 10)),
       dashify (digitChar (d.hour % 10)), '-',
       dashify (digitChar (d.minute / 10 % 10)),
       dashify (digitChar (d.minute % 10)), '-',
       dashify (digitChar (d.second / 10 % 10)),
       dashify (digitChar (d.second % 10))] := rfl

/-- C10: for every clock reading the generated filename is
`screenshot-` followed by a 19-character timestamp slug of decimal
digits, `T` and hyphens, followed by `.png`; every character of the
filename is alphanumeric, a hyphen, or a dot, so it contains no
spaces, quotes, or shell metacharacters. -/
theorem filename_shape (d : DateTime) :
    (generateFilename d).data =
      "screenshot-".data ++ isoSlugChars d ++ ".png".data ∧
    (isoSlugChars d).length = 19 ∧
    (isoSlugChars d).all (fun c => c.isDigit || c == 'T' || c == '-') = true ∧
    (generateFilename d).data.all
      (fun c => c.isAlphanum || c == '-' || c == '.') = true := by
  have hdata : (generateFilename d).data =
      "screenshot-".data ++ isoSlugChars d ++ ".png".data := by
    show ("screenshot-" ++ String.mk (isoSlugChars d) ++ ".png").data = _
    rw [String.data_append, String.data_append]
  have hslug : (isoSlugChars d).all
      (fun c => c.isDigit || c == 'T' || c == '-') = true := by
    rw [isoSlugChars_explicit]
    simp only [List.all_cons, List.all_nil, slugChar_digit_ok, slugChar_dash_ok,
      slugChar_T_ok, Bool.true_and, Bool.and_true]
  have hslug2 : (isoSlugChars d).all
      (fun c => c.isAlphanum || c == '-' || c == '.') = true := by
    rw [isoSlugChars_explicit]
    simp only [List.all_cons, List.all_nil, slugChar_digit_alnum,
      slugChar_dash_alnum, slugChar_T_alnum, Bool.true_and, Bool.and_true]
  refine ⟨hdata, rfl, hslug, ?_⟩
  rw [hdata]
  simp only [List.all_append, hslug2, Bool.and_true, Bool.true_and]
  decide

end Clipshot
